import Mathlib

/-!
Verification of the JSON-RPC request pipeline of
`src/packages/near-api-js/src/providers/wallet-rpc-provider.ts`
(`WalletRpcProvider.sendJsonRpc` and its helpers), as a shallow embedding.

JavaScript dynamic values are modelled by the inductive `JVal`; thrown
exceptions by `JsError`; the mutable module-global `_nextId` and the log of
transport round-trips by `WorldState`, threaded explicitly.
-/

namespace WalletRpc

/-- A JavaScript value as it flows through the provider code: `undefined`,
`null`, booleans, (integer) numbers, strings, arrays and plain objects. -/
inductive JVal where
  | vUndefined : JVal
  | vNull : JVal
  | vBool (b : Bool) : JVal
  | vNum (n : Int) : JVal
  | vStr (s : String) : JVal
  | vArr (elems : List JVal) : JVal
  | vObj (fields : List (String × JVal)) : JVal
  deriving Repr

namespace JVal

/-- JavaScript `typeof`, including the quirk `typeof null === "object"`. -/
def typeOf : JVal → String
  | vUndefined => "undefined"
  | vNull => "object"
  | vBool _ => "boolean"
  | vNum _ => "number"
  | vStr _ => "string"
  | vArr _ => "object"
  | vObj _ => "object"

/-- JavaScript truthiness, as used by `if ((response as any).error)`. -/
def truthy : JVal → Bool
  | vUndefined => false
  | vNull => false
  | vBool b => b
  | vNum n => n != 0
  | vStr s => s != ""
  | vArr _ => true
  | vObj _ => true

/-- `Array.isArray`. -/
def isArr : JVal → Bool
  | vArr _ => true
  | _ => false

/-- Property read `v.k` on a receiver that is not `null`/`undefined`:
objects look the key up (first binding wins), everything else yields
`undefined`.  Reads on `null`/`undefined` receivers throw in JavaScript and
are modelled separately where the source can reach them. -/
def prop : JVal → String → JVal
  | vObj fields, k =>
    match fields.find? (fun f => f.1 == k) with
    | some f => f.2
    | none => vUndefined
  | _, _ => vUndefined

/-- Array indexing `v[0]` as used on the bare-array transport reply. -/
def index0 : JVal → JVal
  | vArr es => es.headD vUndefined
  | _ => vUndefined

/-- Strict equality `v === "lit"` against a string literal: true only when
`v` is that exact string. -/
def strictEqStr : JVal → String → Bool
  | vStr s, t => s == t
  | _, _ => false

/-- Is the value the JavaScript `null`? -/
def isNull : JVal → Bool
  | vNull => true
  | _ => false

/-- Is the value a plain (non-array) object? -/
def isObj : JVal → Bool
  | vObj _ => true
  | _ => false

mutual

/-- JavaScript string coercion as performed by a template literal
`[$\x7berror.code\x7d] ...` over the values this code can see. -/
def toJsString : JVal → String
  | vUndefined => "undefined"
  | vNull => "null"
  | vBool b => if b then "true" else "false"
  | vNum n => toString n
  | vStr s => s
  | vArr es => String.intercalate "," (toJsStringList es)
  | vObj _ => "[object Object]"

/-- The strings the elements of an array contribute when the array is
coerced (`Array.prototype.join`): `null` and `undefined` join as empty. -/
def toJsStringList : List JVal → List String
  | [] => []
  | vNull :: rest => "" :: toJsStringList rest
  | vUndefined :: rest => "" :: toJsStringList rest
  | v :: rest => toJsString v :: toJsStringList rest

end

/-- Read a value known to be a string (used after a `typeof x === "string"`
guard in the source). -/
def asString : JVal → String
  | vStr s => s
  | _ => ""

end JVal

/-- Pattern-free substring check: does `pat` occur as a prefix of `s`? -/
def listPrefixOf : List Char → List Char → Bool
  | [], _ => true
  | _ :: _, [] => false
  | a :: as, b :: bs => a == b && listPrefixOf as bs

/-- Does `pat` occur contiguously somewhere in `s`? -/
def listContains (pat : List Char) : List Char → Bool
  | [] => listPrefixOf pat []
  | s@(_ :: rest) => listPrefixOf pat s || listContains pat rest

/-- `String.includes` of JavaScript: substring containment. -/
def strIncludes (s pat : String) : Bool :=
  listContains pat.toList s.toList

/-- An exception thrown inside `sendJsonRpc`:
`typedError` is `new TypedError(message, type)` (`errType` is the dynamic
second argument — the legacy branch passes `error.data.error_type`, the
timeout branch the literal `"TimeoutError"`, the generic branch
`error.name`); `rpcError` models the value of `parseRpcError(error.data)`;
`plainError` is `new Error(...)`; `typeError` is the runtime TypeError a
property read on `null` raises; `fuelOut` is the embedding artifact for
exhausted recursion fuel (never reached at the depths proved here). -/
inductive JsError where
  | typedError (message : String) (errType : JVal) : JsError
  | rpcError (data : JVal) : JsError
  | plainError (message : String) : JsError
  | typeError (message : String) : JsError
  | fuelOut : JsError
  deriving Repr

/-- The `catch` clause test `error.type === "TimeoutError"`: only a
`TypedError` carries a `type` field, and it must be the string
`"TimeoutError"`. -/
def JsError.isTimeout : JsError → Bool
  | .typedError _ (JVal.vStr "TimeoutError") => true
  | _ => false

/-- Property read `v.k` where the receiver may be `null` or `undefined`:
those receivers throw a TypeError in JavaScript (as
`(response as any).error` does on line 426 for a null/undefined reply);
any other receiver reads as `prop`. -/
def JVal.propEx : JVal → String → Except JsError JVal
  | JVal.vNull, _ => Except.error (JsError.typeError "Cannot read properties of null")
  | JVal.vUndefined, _ =>
    Except.error (JsError.typeError "Cannot read properties of undefined")
  | v, k => Except.ok (v.prop k)

/-- The template literal of wallet-rpc-provider.ts line 436:
`[$\x7berror.code\x7d] $\x7berror.message\x7d: $\x7berror.data\x7d`. -/
def composedMessage (error : JVal) : String :=
  "[" ++ (error.prop "code").toJsString ++ "] "
    ++ (error.prop "message").toJsString ++ ": " ++ (error.prop "data").toJsString

/-- The error-payload classification inlined in `sendJsonRpc`
(wallet-rpc-provider.ts lines 427-445), given the truthy `response.error`.
Every path throws; the thrown exception is returned as a value.  Note that
`typeof error.data === "object"` also holds for `error.data === null`
(JavaScript quirk), in which case reading `error.data.error_message` on
line 429 raises a TypeError. -/
def classifyError (error : JVal) : JsError :=
  let data := error.prop "data"
  if data.typeOf == "object" then
    if data.isNull then
      JsError.typeError "Cannot read properties of null"
    else
      if (data.prop "error_message").typeOf == "string"
          && (data.prop "error_type").typeOf == "string" then
        JsError.typedError (data.prop "error_message").asString (data.prop "error_type")
      else
        JsError.rpcError data
  else
    let errorMessage := composedMessage error
    if data.strictEqStr "Timeout" || strIncludes errorMessage "Timeout error"
        || strIncludes errorMessage "query has timed out" then
      JsError.typedError errorMessage (JVal.vStr "TimeoutError")
    else
      JsError.typedError errorMessage (error.prop "name")

/-- Retry-loop constants of wallet-rpc-provider.ts lines 36-43. -/
def REQUEST_RETRY_NUMBER : Nat := 12

/-- Base wait (ms) before the first retry. -/
def REQUEST_RETRY_WAIT : Nat := 500

/-- Modelled from the spec: `utils/exponential-backoff.ts` is imported but not
under `src/`; per section 4.2 the delay before retry `attempt` grows as
`baseDelay * multiplier ^ attempt` with `baseDelay = 500`, `multiplier = 1.5`,
uncapped. -/
def delayFor (attempt : Nat) : ℚ :=
  (REQUEST_RETRY_WAIT : ℚ) * (3 / 2) ^ attempt

/-- The mutable world outside one `sendJsonRpc` activation: the module-global
`_nextId` counter (line 46, shared by every provider instance in the process)
and the log of transport round-trips `(id, method, params)` made so far. -/
structure WorldState where
  nextId : Nat
  calls : List (Nat × String × JVal)
  deriving Repr

/-- A transport (`WalletProvider.request`): given the index of the round-trip
(how many transport calls happened before, process-wide), the method and the
params, it produces the raw reply value. -/
def Transport : Type := Nat → String → JVal → JVal

/-- The per-attempt stamping of the envelope (wallet-rpc-provider.ts lines
415-420): the request takes `id = _nextId++` (the module-global counter is
read and incremented), and the round-trip `(id, method, params)` is appended
to the process-wide call log. -/
def stampCall (st : WorldState) (method : String) (params : JVal) : WorldState :=
  ⟨st.nextId + 1, st.calls ++ [(st.nextId, method, params)]⟩

/-- The `try` block of the callback passed to `exponentialBackoff`
(wallet-rpc-provider.ts lines 413-450): `.ok v` is a normal return of the
(truthy, object) value `v`, `.error e` is a thrown exception.  A non-array
`null`/`undefined` reply crashes with a TypeError at the property read
`(response as any).error` of line 426 (`propEx`).  `inner` is the recursive
entry into `this.txStatusString`, i.e. `sendJsonRpc "tx" [hash, account]`
with the bound account of the instance. -/
def attemptBody (providerPresent : Bool) (transport : Transport) (account : String)
    (method : String) (params : JVal)
    (inner : String → JVal → WorldState → Except JsError JVal × WorldState)
    (st : WorldState) : Except JsError JVal × WorldState :=
  if providerPresent then
    let idx := st.calls.length
    let st1 : WorldState := stampCall st method params
    let reply := transport idx method params
    if reply.isArr then
      match inner "tx" (JVal.vArr [reply.index0, JVal.vStr account]) st1 with
      | (Except.error e, st2) => (Except.error e, st2)
      | (Except.ok txStatus, st2) =>
        (Except.ok (JVal.vObj [("reesult", txStatus)]), st2)
    else
      match reply.propEx "error" with
      | Except.error e => (Except.error e, st1)
      | Except.ok errv =>
        if errv.truthy then
          (Except.error (classifyError errv), st1)
        else
          (Except.ok (JVal.vObj [("result", reply)]), st1)
  else
    (Except.error (JsError.plainError "Provider not exist"), st)

/-- The `catch` clause wrapped around `attemptBody` (lines 451-460): a thrown
error whose `type` is `"TimeoutError"` becomes `return null` (a retry); every
other error is rethrown. -/
def attemptStep (providerPresent : Bool) (transport : Transport) (account : String)
    (method : String) (params : JVal)
    (inner : String → JVal → WorldState → Except JsError JVal × WorldState)
    (st : WorldState) : Except JsError (Option JVal) × WorldState :=
  match attemptBody providerPresent transport account method params inner st with
  | (Except.ok v, st2) => (Except.ok (some v), st2)
  | (Except.error e, st2) =>
    if e.isTimeout then (Except.ok none, st2)
    else (Except.error e, st2)

/-- Modelled from the spec: the retry loop of `utils/exponential-backoff.ts`,
which is imported by wallet-rpc-provider.ts but not under `src/`.  Per
section 4.2, the loop runs the callback at most `n = maxAttempts` times,
returns the first truthy (non-null) result, suspends for the backoff delay
before each further attempt (the delay has no observable effect here), lets a
thrown exception propagate, and after `maxAttempts` failed/timeout iterations
terminates so that the caller sees the retries-exceeded failure — modelled by
returning an empty object, on which the missing-`result` check of the caller
fires. -/
def backoffLoop (n : Nat)
    (step : WorldState → Except JsError (Option JVal) × WorldState)
    (st : WorldState) : Except JsError JVal × WorldState :=
  match n with
  | 0 => (Except.ok (JVal.vObj []), st)
  | Nat.succ k =>
    match step st with
    | (Except.error e, st2) => (Except.error e, st2)
    | (Except.ok (some v), st2) => (Except.ok v, st2)
    | (Except.ok none, st2) => backoffLoop k step st2

/-- `WalletRpcProvider.sendJsonRpc` (wallet-rpc-provider.ts lines 411-472):
runs the attempt callback under the backoff loop, then destructures
`const \x7b result \x7d = response` and throws the `RetriesExceeded`
`TypedError` when `typeof result === "undefined"`.  `fuel` bounds the nesting
depth of the secondary `tx`-status lookup the bare-array reply path performs
(`this.txStatusString`, line 424), which re-enters `sendJsonRpc`;
`providerPresent` is whether `this._provider` is non-null. -/
def sendJsonRpc : Nat → Bool → Transport → String → String → JVal → WorldState →
    Except JsError JVal × WorldState
  | 0, _, _, _, _, _, st => (Except.error JsError.fuelOut, st)
  | Nat.succ fuel, prov, transport, account, method, params, st =>
    let run := backoffLoop REQUEST_RETRY_NUMBER
      (attemptStep prov transport account method params
        (sendJsonRpc fuel prov transport account)) st
    match run with
    | (Except.error e, st2) => (Except.error e, st2)
    | (Except.ok response, st2) =>
      let result := response.prop "result"
      if result.typeOf == "undefined" then
        (Except.error (JsError.typedError
          ("Exceeded " ++ toString REQUEST_RETRY_NUMBER ++ " attempts for request to "
            ++ method ++ ".")
          (JVal.vStr "RetriesExceeded")), st2)
      else
        (Except.ok result, st2)

/-- The fields of a `WalletRpcProvider` instance that the class mutates
(wallet-rpc-provider.ts lines 66-71).  `provider` is `this._provider`,
declared `WalletProvider | null` and bound in the constructor; the payload
`Transport` stands for the bound `WalletProvider`. -/
structure ProviderInstance where
  provider : Option Transport
  network : String
  account : String
  pubKeys : List String

/-- The constructor (lines 105-111): binds `this._provider` to the given
(non-null, by the `provider: WalletProvider` signature) transport and
registers the two event listeners.  The initial field values are the
declarations of lines 67-71. -/
def mkWalletRpcProvider (p : Transport) : ProviderInstance :=
  { provider := some p, network := "", account := "", pubKeys := [] }

/-- The operations a constructed instance can undergo afterwards: the
`chainChanged` listener `updateNetwork` (lines 124-126), the
`accountsChanged` listener `updateAccount` (lines 131-134), `on` (lines
139-143), the `init` continuation writing `_network`/`_account` (lines
113-119), and any RPC entry point, all of which funnel into `sendJsonRpc`
(which reads but never writes the instance fields). -/
inductive ProviderOp where
  | updateNetwork (chainId : String) : ProviderOp
  | updateAccount (address : String) (pubKeys : List String) : ProviderOp
  | onListener (message : String) : ProviderOp
  | initDone (chainId : String) (account : String) : ProviderOp
  | rpcCall (method : String) (params : JVal) : ProviderOp

/-- Effect of one operation on the instance fields.  No operation writes
`_provider`; only the constructor ever assigns it. -/
def applyOp (s : ProviderInstance) : ProviderOp → ProviderInstance
  | ProviderOp.updateNetwork c => { s with network := c }
  | ProviderOp.updateAccount a ks => { s with account := a, pubKeys := ks }
  | ProviderOp.onListener _ => s
  | ProviderOp.initDone c a => { s with network := c, account := a }
  | ProviderOp.rpcCall _ _ => s

/-- A whole post-construction history. -/
def applyOps (s : ProviderInstance) : List ProviderOp → ProviderInstance
  | [] => s
  | op :: rest => applyOps (applyOp s op) rest

/-! ## Reduction lemmas -/

theorem backoffLoop_succ (n : Nat)
    (step : WorldState → Except JsError (Option JVal) × WorldState) (st : WorldState) :
    backoffLoop (n + 1) step st
      = match step st with
        | (Except.error e, st2) => (Except.error e, st2)
        | (Except.ok (some v), st2) => (Except.ok v, st2)
        | (Except.ok none, st2) => backoffLoop n step st2 := rfl

theorem retry_number_succ : REQUEST_RETRY_NUMBER = 11 + 1 := rfl

/-- A plain object is not an array. -/
theorem isObj_not_isArr (v : JVal) (h : v.isObj = true) : v.isArr = false := by
  cases v <;> simp_all [JVal.isObj, JVal.isArr]

/-- Property reads on a plain object never crash. -/
theorem propEx_of_isObj (v : JVal) (k : String) (h : v.isObj = true) :
    v.propEx k = Except.ok (v.prop k) := by
  cases v <;> simp_all [JVal.isObj, JVal.propEx]

/-- A plain object has `typeof` `"object"`. -/
theorem typeOf_of_isObj (v : JVal) (h : v.isObj = true) : v.typeOf = "object" := by
  cases v <;> simp_all [JVal.isObj, JVal.typeOf]

/-- A receiver with a truthy property is not `null`/`undefined`, so the read
does not crash. -/
theorem propEx_of_truthy (v : JVal) (k : String) (h : (v.prop k).truthy = true) :
    v.propEx k = Except.ok (v.prop k) := by
  cases v <;> simp_all [JVal.prop, JVal.truthy, JVal.propEx]

/-- A non-crashing read yields exactly `prop`. -/
theorem propEx_ok_eq_prop (v : JVal) (k : String) (errv : JVal)
    (h : v.propEx k = Except.ok errv) : errv = v.prop k := by
  cases v <;> simp_all [JVal.propEx]

/-- A `try` block whose non-array transport reply crashes the `.error` read
(the reply is `null`/`undefined`) throws that TypeError. -/
theorem attemptBody_crash (transport : Transport) (account method : String)
    (params : JVal)
    (inner : String → JVal → WorldState → Except JsError JVal × WorldState)
    (st : WorldState) (e : JsError)
    (h1 : (transport st.calls.length method params).isArr = false)
    (hpe : (transport st.calls.length method params).propEx "error" = Except.error e) :
    attemptBody true transport account method params inner st
      = (Except.error e, stampCall st method params) := by
  simp [attemptBody, h1, hpe]

/-- A `try` block whose non-array reply reads a truthy `error` value throws
the classified error. -/
theorem attemptBody_ok_err (transport : Transport) (account method : String)
    (params : JVal)
    (inner : String → JVal → WorldState → Except JsError JVal × WorldState)
    (st : WorldState) (errv : JVal)
    (h1 : (transport st.calls.length method params).isArr = false)
    (hpe : (transport st.calls.length method params).propEx "error" = Except.ok errv)
    (h3 : errv.truthy = true) :
    attemptBody true transport account method params inner st
      = (Except.error (classifyError errv), stampCall st method params) := by
  simp [attemptBody, h1, hpe, h3]

/-- A `try` block whose non-array reply reads a falsy `error` value returns
the reply wrapped as `\x7b result: reply \x7d`. -/
theorem attemptBody_ok_plain (transport : Transport) (account method : String)
    (params : JVal)
    (inner : String → JVal → WorldState → Except JsError JVal × WorldState)
    (st : WorldState) (errv : JVal)
    (h1 : (transport st.calls.length method params).isArr = false)
    (hpe : (transport st.calls.length method params).propEx "error" = Except.ok errv)
    (h3 : errv.truthy = false) :
    attemptBody true transport account method params inner st
      = (Except.ok (JVal.vObj [("result", transport st.calls.length method params)]),
         stampCall st method params) := by
  simp [attemptBody, h1, hpe, h3]

/-- A `try` block whose transport reply is a non-array plain object with a
falsy `error` property returns the reply wrapped as
`\x7b result: reply \x7d`. -/
theorem attemptBody_plain (transport : Transport) (account method : String)
    (params : JVal)
    (inner : String → JVal → WorldState → Except JsError JVal × WorldState)
    (st : WorldState)
    (h1 : (transport st.calls.length method params).isObj = true)
    (h2 : ((transport st.calls.length method params).prop "error").truthy = false) :
    attemptBody true transport account method params inner st
      = (Except.ok (JVal.vObj [("result", transport st.calls.length method params)]),
         stampCall st method params) :=
  attemptBody_ok_plain transport account method params inner st _
    (isObj_not_isArr _ h1) (propEx_of_isObj _ "error" h1) h2

/-- A `try` block whose transport reply carries a truthy `error` property
throws the classified error (a truthy property rules the crash out). -/
theorem attemptBody_err (transport : Transport) (account method : String)
    (params : JVal)
    (inner : String → JVal → WorldState → Except JsError JVal × WorldState)
    (st : WorldState)
    (h1 : (transport st.calls.length method params).isArr = false)
    (h2 : ((transport st.calls.length method params).prop "error").truthy = true) :
    attemptBody true transport account method params inner st
      = (Except.error (classifyError ((transport st.calls.length method params).prop "error")),
         stampCall st method params) :=
  attemptBody_ok_err transport account method params inner st _
    h1 (propEx_of_truthy _ "error" h2) h2

/-- An attempt whose transport reply is a non-array plain object with a falsy
`error` property returns the reply wrapped as `\x7b result: reply \x7d`. -/
theorem attemptStep_plain (transport : Transport) (account method : String)
    (params : JVal)
    (inner : String → JVal → WorldState → Except JsError JVal × WorldState)
    (st : WorldState)
    (h1 : (transport st.calls.length method params).isObj = true)
    (h2 : ((transport st.calls.length method params).prop "error").truthy = false) :
    attemptStep true transport account method params inner st
      = (Except.ok (some (JVal.vObj [("result", transport st.calls.length method params)])),
         stampCall st method params) := by
  rw [attemptStep, attemptBody_plain transport account method params inner st h1 h2]

/-- An attempt whose transport reply carries a truthy `error` property throws
the classified error; it escapes the `catch` unless Timeout-discriminated. -/
theorem attemptStep_err (transport : Transport) (account method : String)
    (params : JVal)
    (inner : String → JVal → WorldState → Except JsError JVal × WorldState)
    (st : WorldState)
    (h1 : (transport st.calls.length method params).isArr = false)
    (h2 : ((transport st.calls.length method params).prop "error").truthy = true)
    (h3 : (classifyError ((transport st.calls.length method params).prop "error")).isTimeout
      = false) :
    attemptStep true transport account method params inner st
      = (Except.error (classifyError ((transport st.calls.length method params).prop "error")),
         stampCall st method params) := by
  rw [attemptStep, attemptBody_err transport account method params inner st h1 h2]
  simp [h3]

/-- An attempt whose transport reply carries a truthy `error` property whose
classification is Timeout-discriminated is swallowed by the `catch` and
becomes a `return null`, i.e. a retry. -/
theorem attemptStep_timeout (transport : Transport) (account method : String)
    (params : JVal)
    (inner : String → JVal → WorldState → Except JsError JVal × WorldState)
    (st : WorldState)
    (h1 : (transport st.calls.length method params).isArr = false)
    (h2 : ((transport st.calls.length method params).prop "error").truthy = true)
    (h3 : (classifyError ((transport st.calls.length method params).prop "error")).isTimeout
      = true) :
    attemptStep true transport account method params inner st
      = (Except.ok none, stampCall st method params) := by
  rw [attemptStep, attemptBody_err transport account method params inner st h1 h2]
  simp [h3]

/-- `sendJsonRpc` on a first reply that is a non-array plain object with a
falsy `error` property: one attempt, and the raw reply itself is returned
(the `\x7b result: response \x7d` wrapper of line 448 is undone by the
destructuring of line 462). -/
theorem sendJsonRpc_first_ok (fuel : Nat) (transport : Transport)
    (account method : String) (params : JVal) (st : WorldState)
    (h1 : (transport st.calls.length method params).isObj = true)
    (h2 : ((transport st.calls.length method params).prop "error").truthy = false) :
    sendJsonRpc (fuel + 1) true transport account method params st
      = (Except.ok (transport st.calls.length method params), stampCall st method params) := by
  rw [sendJsonRpc, retry_number_succ, backoffLoop_succ,
    attemptStep_plain transport account method params _ st h1 h2]
  simp [JVal.prop, typeOf_of_isObj _ h1]

/-- `sendJsonRpc` on a first reply with a truthy `error` property whose
classification is not Timeout-discriminated: the classified error is thrown
out of the loop on the first attempt, with no retry. -/
theorem sendJsonRpc_first_err (fuel : Nat) (transport : Transport)
    (account method : String) (params : JVal) (st : WorldState)
    (h1 : (transport st.calls.length method params).isArr = false)
    (h2 : ((transport st.calls.length method params).prop "error").truthy = true)
    (h3 : (classifyError ((transport st.calls.length method params).prop "error")).isTimeout
      = false) :
    sendJsonRpc (fuel + 1) true transport account method params st
      = (Except.error (classifyError ((transport st.calls.length method params).prop "error")),
         stampCall st method params) := by
  rw [sendJsonRpc, retry_number_succ, backoffLoop_succ,
    attemptStep_err transport account method params _ st h1 h2 h3]

/-- A `null` transport reply is not a success: `Array.isArray(null)` is
false, so line 426 reads `.error` on `null`, and the thrown TypeError (whose
`type` is not `"TimeoutError"`) escapes the `catch` on the first attempt. -/
theorem sendJsonRpc_null_reply :
    (sendJsonRpc 1 true (fun _ _ _ => JVal.vNull) "acc" "status" (JVal.vArr [])
        ⟨123, []⟩).1
      = Except.error (JsError.typeError "Cannot read properties of null")
    ∧ (sendJsonRpc 1 true (fun _ _ _ => JVal.vNull) "acc" "status" (JVal.vArr [])
        ⟨123, []⟩).2.calls.length = 1 :=
  ⟨rfl, rfl⟩

/-! ## Claim C1 -/

/-- The transport of the C1 scenario: every request is answered with the raw
reply `\x7bresult: \x7bchain_id: "testnet"\x7d\x7d`. -/
def c1Transport : Transport :=
  fun _ _ _ => JVal.vObj [("result", JVal.vObj [("chain_id", JVal.vStr "testnet")])]

/-- C1 counterexample: with method `"status"`, params `[]` and the transport
replying `\x7bresult: \x7bchain_id: "testnet"\x7d\x7d`, `sendJsonRpc` does
NOT yield `\x7bchain_id: "testnet"\x7d` — it yields the whole reply, because
line 448 wraps the raw reply as `\x7b result: response \x7d` and line 462
destructures that wrapper, undoing the wrap instead of entering the reply. -/
theorem c1_counterexample :
    (sendJsonRpc 2 true c1Transport "acc" "status" (JVal.vArr []) ⟨123, []⟩).1
        ≠ Except.ok (JVal.vObj [("chain_id", JVal.vStr "testnet")])
      ∧ (sendJsonRpc 2 true c1Transport "acc" "status" (JVal.vArr []) ⟨123, []⟩).1
        = Except.ok (JVal.vObj [("result", JVal.vObj [("chain_id", JVal.vStr "testnet")])]) := by
  refine ⟨?_, rfl⟩
  intro h
  rw [show (sendJsonRpc 2 true c1Transport "acc" "status" (JVal.vArr []) ⟨123, []⟩).1
      = Except.ok (JVal.vObj [("result", JVal.vObj [("chain_id", JVal.vStr "testnet")])])
    from rfl] at h
  simp at h

/-- C1 (amended): for every transport reply that is a non-array plain object
whose `error` property is falsy, `sendJsonRpc` returns the reply ITSELF (not
the value of its `result` field), after a single attempt (one stamped
round-trip, zero retries); in the C1 scenario it yields
`\x7bresult: \x7bchain_id: "testnet"\x7d\x7d`. -/
theorem c1_amended_theorem (fuel : Nat) (transport : Transport)
    (account method : String) (params : JVal) (st : WorldState)
    (h1 : (transport st.calls.length method params).isObj = true)
    (h2 : ((transport st.calls.length method params).prop "error").truthy = false) :
    sendJsonRpc (fuel + 1) true transport account method params st
      = (Except.ok (transport st.calls.length method params), stampCall st method params) :=
  sendJsonRpc_first_ok fuel transport account method params st h1 h2

/-- C1 witness: the amended theorem at the concrete scenario — the whole
envelope comes back, with exactly one round-trip stamped. -/
theorem c1_witness :
    sendJsonRpc 2 true c1Transport "acc" "status" (JVal.vArr []) ⟨123, []⟩
      = (Except.ok (JVal.vObj [("result", JVal.vObj [("chain_id", JVal.vStr "testnet")])]),
         ⟨124, [(123, "status", JVal.vArr [])]⟩) :=
  c1_amended_theorem 1 c1Transport "acc" "status" (JVal.vArr []) ⟨123, []⟩ rfl rfl

/-! ## Claim C2 -/

/-- The transport of the C2 scenario: the send-mode call is answered with the
bare array `["H9k2"]`; the secondary `tx` status call is answered with
`\x7bstatus: "ok"\x7d`. -/
def c2Transport : Transport := fun _ m _ =>
  if m == "tx" then JVal.vObj [("status", JVal.vStr "ok")]
  else JVal.vArr [JVal.vStr "H9k2"]

/-- C2: the secondary transaction-status lookup keyed by the hash (element 0)
and the bound account id IS performed — the call log shows
`("tx", ["H9k2", "alice"])` — but its result is stored under the misspelled
key `reesult` (line 425), so the unwrap of line 462 finds no `result` and
`sendJsonRpc` ends in the `RetriesExceeded` failure instead of returning the
lookup result as the successful outcome the spec describes. -/
theorem c2_bug_eval :
    sendJsonRpc 3 true c2Transport "alice" "broadcast_tx_async" (JVal.vArr []) ⟨123, []⟩
      = (Except.error (JsError.typedError
          "Exceeded 12 attempts for request to broadcast_tx_async."
          (JVal.vStr "RetriesExceeded")),
         ⟨125, [(123, "broadcast_tx_async", JVal.vArr []),
                (124, "tx", JVal.vArr [JVal.vStr "H9k2", JVal.vStr "alice"])]⟩) := rfl

/-! ## Claim C3 -/

/-- An error payload with scalar `data` that matches none of the three
timeout conditions but whose `name` field is itself `"TimeoutError"`. -/
def c3Err : JVal := JVal.vObj
  [("code", JVal.vNum 1), ("message", JVal.vStr "boom"),
   ("name", JVal.vStr "TimeoutError"), ("data", JVal.vStr "x")]

/-- C3 counterexample to the "only then" direction: `c3Err` has scalar
`data`, satisfies none of the three timeout conditions, yet classification
yields a `TimeoutError`-discriminated error, because the generic branch of
line 444 copies `error.name` into the discriminator. -/
theorem c3_counterexample :
    ((c3Err.prop "data").typeOf == "object") = false
    ∧ (c3Err.prop "data").strictEqStr "Timeout" = false
    ∧ strIncludes (composedMessage c3Err) "Timeout error" = false
    ∧ strIncludes (composedMessage c3Err) "query has timed out" = false
    ∧ classifyError c3Err
        = JsError.typedError (composedMessage c3Err) (JVal.vStr "TimeoutError") :=
  ⟨rfl, rfl, rfl, rfl, rfl⟩

/-- C3 (amended): for error payloads with absent or scalar (non-object-typed)
`data`, classification yields a `TimeoutError`-discriminated error carrying
the composed message `[code] message: data` exactly when `data === "Timeout"`
or the composed message contains `"Timeout error"` or `"query has timed
out"` — OR the `name` field of the payload is itself the string `"TimeoutError"`
(the generic branch copies `name` into the discriminator). -/
theorem c3_amended_theorem (error : JVal)
    (hscalar : ((error.prop "data").typeOf == "object") = false) :
    classifyError error
        = JsError.typedError (composedMessage error) (JVal.vStr "TimeoutError")
      ↔ ((error.prop "data").strictEqStr "Timeout" = true
          ∨ strIncludes (composedMessage error) "Timeout error" = true
          ∨ strIncludes (composedMessage error) "query has timed out" = true
          ∨ error.prop "name" = JVal.vStr "TimeoutError") := by
  have hred : classifyError error
      = if ((error.prop "data").strictEqStr "Timeout"
            || strIncludes (composedMessage error) "Timeout error"
            || strIncludes (composedMessage error) "query has timed out") then
          JsError.typedError (composedMessage error) (JVal.vStr "TimeoutError")
        else JsError.typedError (composedMessage error) (error.prop "name") := by
    simp [classifyError, hscalar]
  rw [hred]
  by_cases hc : ((error.prop "data").strictEqStr "Timeout"
      || strIncludes (composedMessage error) "Timeout error"
      || strIncludes (composedMessage error) "query has timed out") = true
  · rw [if_pos hc]
    simp only [Bool.or_eq_true] at hc
    constructor
    · intro _
      rcases hc with h | h
      · rcases h with h | h
        · exact Or.inl h
        · exact Or.inr (Or.inl h)
      · exact Or.inr (Or.inr (Or.inl h))
    · intro _
      rfl
  · rw [if_neg hc]
    simp only [Bool.or_eq_true, not_or, Bool.not_eq_true] at hc
    obtain ⟨⟨hc1, hc2⟩, hc3⟩ := hc
    constructor
    · intro h
      injection h with _ hn
      exact Or.inr (Or.inr (Or.inr hn))
    · intro h
      rcases h with h | h | h | h
      · rw [hc1] at h
        exact absurd h (by simp)
      · rw [hc2] at h
        exact absurd h (by simp)
      · rw [hc3] at h
        exact absurd h (by simp)
      · rw [h]

/-- C3 witness for the amended theorem: a payload with `data = "Timeout"`
classifies as Timeout. -/
theorem c3_witness :
    classifyError (JVal.vObj
        [("code", JVal.vNum (-32000)), ("message", JVal.vStr "timeout"),
         ("name", JVal.vStr "E"), ("data", JVal.vStr "Timeout")])
      = JsError.typedError "[-32000] timeout: Timeout" (JVal.vStr "TimeoutError") := by
  have h := (c3_amended_theorem (JVal.vObj
      [("code", JVal.vNum (-32000)), ("message", JVal.vStr "timeout"),
       ("name", JVal.vStr "E"), ("data", JVal.vStr "Timeout")]) rfl).mpr (Or.inl rfl)
  exact h

/-! ## Claim C4 -/

/-- C4: when `data` is (object-typed and) a non-null object, classification
checks for string-typed `error_message` and `error_type`: when both are
present it throws the legacy `TypedError` carrying exactly those two field
values (never the generic composed-message error, never the structured
`parseRpcError` result); any other such object is handed to `parseRpcError`
(modelled opaquely by `JsError.rpcError`). -/
theorem c4_theorem (error : JVal)
    (hobj : ((error.prop "data").typeOf == "object") = true)
    (hnn : (error.prop "data").isNull = false) :
    ((((error.prop "data").prop "error_message").typeOf == "string") = true →
      ((((error.prop "data").prop "error_type").typeOf == "string") = true) →
      classifyError error
        = JsError.typedError ((error.prop "data").prop "error_message").asString
            ((error.prop "data").prop "error_type"))
    ∧ (((((error.prop "data").prop "error_message").typeOf == "string") = false
        ∨ ((((error.prop "data").prop "error_type").typeOf == "string") = false)) →
      classifyError error = JsError.rpcError (error.prop "data")) := by
  constructor
  · intro hm ht
    simp [classifyError, hobj, hnn, hm, ht]
  · intro hcase
    rcases hcase with hm | ht
    · simp [classifyError, hobj, hnn, hm]
    · simp [classifyError, hobj, hnn, ht]

/-- C4 witness: a legacy-format payload classifies to the `TypedError`
carrying exactly `error_message` and `error_type`. -/
theorem c4_witness :
    classifyError (JVal.vObj [("data", JVal.vObj
        [("error_message", JVal.vStr "account does not exist"),
         ("error_type", JVal.vStr "UNKNOWN_ACCOUNT")])])
      = JsError.typedError "account does not exist" (JVal.vStr "UNKNOWN_ACCOUNT") := by
  have h := (c4_theorem (JVal.vObj [("data", JVal.vObj
      [("error_message", JVal.vStr "account does not exist"),
       ("error_type", JVal.vStr "UNKNOWN_ACCOUNT")])]) rfl rfl).1 rfl rfl
  exact h

/-! ## Claim C5 -/

/-- An error payload whose `data` is the JavaScript `null`, matching no
timeout condition. -/
def c5Err : JVal := JVal.vObj
  [("code", JVal.vNum 1), ("message", JVal.vStr "boom"),
   ("name", JVal.vStr "E"), ("data", JVal.vNull)]

/-- C5 counterexample: for `data = null` (a scalar per the claim) the code
does NOT produce the generic error — `typeof null === "object"` routes it
into the object branch, where reading `error.data.error_message` (line 429)
raises a TypeError. -/
theorem c5_counterexample :
    classifyError c5Err = JsError.typeError "Cannot read properties of null"
    ∧ classifyError c5Err
        ≠ JsError.typedError (composedMessage c5Err) (c5Err.prop "name") := by
  refine ⟨rfl, ?_⟩
  intro h
  rw [show classifyError c5Err = JsError.typeError "Cannot read properties of null"
    from rfl] at h
  exact JsError.noConfusion h

/-- C5 (amended): for every error payload whose `data` is absent or a
NON-NULL scalar (`typeof data` is not `"object"`) and which matches none of
the three timeout conditions, classification yields the generic `TypedError`
whose message is the composed `[code] message: data` and whose type
discriminator is the `name` field of the payload. -/
theorem c5_amended_theorem (error : JVal)
    (hscalar : ((error.prop "data").typeOf == "object") = false)
    (h1 : (error.prop "data").strictEqStr "Timeout" = false)
    (h2 : strIncludes (composedMessage error) "Timeout error" = false)
    (h3 : strIncludes (composedMessage error) "query has timed out" = false) :
    classifyError error
      = JsError.typedError (composedMessage error) (error.prop "name") := by
  simp [classifyError, hscalar, h1, h2, h3]

/-- C5 witness: a plain scalar-`data` payload classifies to the generic
composed-message error named by its `name` field. -/
theorem c5_witness :
    classifyError (JVal.vObj
        [("code", JVal.vNum 7), ("message", JVal.vStr "bad thing"),
         ("name", JVal.vStr "SomeError"), ("data", JVal.vStr "x")])
      = JsError.typedError "[7] bad thing: x" (JVal.vStr "SomeError") := by
  have h := c5_amended_theorem (JVal.vObj
      [("code", JVal.vNum 7), ("message", JVal.vStr "bad thing"),
       ("name", JVal.vStr "SomeError"), ("data", JVal.vStr "x")]) rfl rfl rfl rfl
  exact h

/-! ## Claim C6 -/

/-- The transport of the C6 counterexample: every reply carries an error
payload the spec taxonomy classifies as Generic — scalar `data = "x"`, none
of the three timeout conditions — but with `name = "TimeoutError"`. -/
def c6Transport : Transport := fun _ _ _ =>
  JVal.vObj [("error", JVal.vObj
    [("code", JVal.vNum 1), ("message", JVal.vStr "boom"),
     ("name", JVal.vStr "TimeoutError"), ("data", JVal.vStr "x")])]

/-- C6 counterexample: a payload the claim places in the Generic class
(scalar `data`, none of the three timeout conditions — the first three
conjuncts) is NOT propagated on its first occurrence: the generic branch of
line 444 copies `name = "TimeoutError"` into the thrown discriminator, the
`catch` therefore RETRIES it, and twelve stamped attempts end in
`RetriesExceeded` rather than the classified error. -/
theorem c6_counterexample :
    ((c6Transport 0 "status" (JVal.vArr [])).prop "error").prop "data"
        = JVal.vStr "x"
    ∧ strIncludes (composedMessage ((c6Transport 0 "status" (JVal.vArr [])).prop "error"))
        "Timeout error" = false
    ∧ strIncludes (composedMessage ((c6Transport 0 "status" (JVal.vArr [])).prop "error"))
        "query has timed out" = false
    ∧ (sendJsonRpc 1 true c6Transport "acc" "status" (JVal.vArr []) ⟨123, []⟩).1
        = Except.error (JsError.typedError
            "Exceeded 12 attempts for request to status." (JVal.vStr "RetriesExceeded"))
    ∧ (sendJsonRpc 1 true c6Transport "acc" "status" (JVal.vArr []) ⟨123, []⟩).2.calls.length
        = 12 :=
  ⟨rfl, rfl, rfl, rfl, rfl⟩

/-- C6 (amended): a first transport reply carrying a truthy `error` whose
classified error is not `"TimeoutError"`-discriminated — which, because the
generic branch copies `name` and the legacy branch copies `error_type` into
the discriminator, excludes Generic payloads named `"TimeoutError"` and
legacy payloads typed `"TimeoutError"` — makes `sendJsonRpc` fail at once
with exactly that classified error: the final state shows a single stamped
round-trip, no second attempt, no backoff wait.  Payloads whose classified
discriminator is `"TimeoutError"` are retried instead
(`c6_counterexample`). -/
theorem c6_amended_theorem (fuel : Nat) (transport : Transport)
    (account method : String) (params : JVal) (st : WorldState)
    (h1 : (transport st.calls.length method params).isArr = false)
    (h2 : ((transport st.calls.length method params).prop "error").truthy = true)
    (h3 : (classifyError ((transport st.calls.length method params).prop "error")).isTimeout
      = false) :
    sendJsonRpc (fuel + 1) true transport account method params st
      = (Except.error (classifyError ((transport st.calls.length method params).prop "error")),
         stampCall st method params) :=
  sendJsonRpc_first_err fuel transport account method params st h1 h2 h3

/-- C6 witness: a generic node error not named `"TimeoutError"` propagates
verbatim on the first attempt, with exactly one stamped round-trip. -/
theorem c6_witness :
    sendJsonRpc 1 true
        (fun _ _ _ => JVal.vObj [("error", JVal.vObj
          [("code", JVal.vNum 7), ("message", JVal.vStr "bad"),
           ("name", JVal.vStr "SomeError"), ("data", JVal.vStr "x")])])
        "acc" "status" (JVal.vArr []) ⟨123, []⟩
      = (Except.error (JsError.typedError "[7] bad: x" (JVal.vStr "SomeError")),
         ⟨124, [(123, "status", JVal.vArr [])]⟩) := by
  have h := c6_amended_theorem 0
      (fun _ _ _ => JVal.vObj [("error", JVal.vObj
        [("code", JVal.vNum 7), ("message", JVal.vStr "bad"),
         ("name", JVal.vStr "SomeError"), ("data", JVal.vStr "x")])])
      "acc" "status" (JVal.vArr []) ⟨123, []⟩ rfl rfl rfl
  exact h

/-! ## Claim C9 -/

/-- A transport that answers every request with the empty object — an
envelope with neither `result` nor `error`. -/
def c9Transport : Transport := fun _ _ _ => JVal.vObj []

/-- C9 counterexample: on a reply carrying neither `result` nor `error`,
`sendJsonRpc` does not fail with any envelope-malformed condition — it
returns the reply as a SUCCESS (the callback wraps it as
`\x7b result: response \x7d`, so the missing-`result` check of line 467 never
fires). -/
theorem c9_counterexample :
    (sendJsonRpc 1 true c9Transport "acc" "status" (JVal.vArr []) ⟨123, []⟩).1
      = Except.ok (JVal.vObj []) := rfl

/-- C9 (amended): the code has no envelope-malformed failure.  For a reply
that is a plain (non-array) object: carrying BOTH `result` and a truthy
`error`, it is routed to the error classifier (and, when the classification
is not Timeout-discriminated, fails with that classified node error);
carrying a falsy/absent `error` — in particular NEITHER field — it is
returned as a success. -/
theorem c9_amended_theorem (fuel : Nat) (transport : Transport)
    (account method : String) (params : JVal) (st : WorldState)
    (h1 : (transport st.calls.length method params).isObj = true) :
    (((transport st.calls.length method params).prop "error").truthy = true →
      (classifyError ((transport st.calls.length method params).prop "error")).isTimeout
          = false →
      sendJsonRpc (fuel + 1) true transport account method params st
        = (Except.error
            (classifyError ((transport st.calls.length method params).prop "error")),
           stampCall st method params))
    ∧ (((transport st.calls.length method params).prop "error").truthy = false →
      sendJsonRpc (fuel + 1) true transport account method params st
        = (Except.ok (transport st.calls.length method params), stampCall st method params)) :=
  ⟨fun h2 h3 => sendJsonRpc_first_err fuel transport account method params st
      (isObj_not_isArr _ h1) h2 h3,
   fun h2 => sendJsonRpc_first_ok fuel transport account method params st h1 h2⟩

/-- C9 witness: a reply with both `result` and a truthy `error` is routed to
the classifier and fails with the classified node error, not an
envelope-malformed condition. -/
theorem c9_witness :
    sendJsonRpc 1 true
        (fun _ _ _ => JVal.vObj
          [("result", JVal.vNum 1),
           ("error", JVal.vObj
             [("code", JVal.vNum 2), ("message", JVal.vStr "x"),
              ("name", JVal.vStr "E"), ("data", JVal.vStr "y")])])
        "acc" "status" (JVal.vArr []) ⟨123, []⟩
      = (Except.error (JsError.typedError "[2] x: y" (JVal.vStr "E")),
         ⟨124, [(123, "status", JVal.vArr [])]⟩) := by
  have h := (c9_amended_theorem 0
      (fun _ _ _ => JVal.vObj
        [("result", JVal.vNum 1),
         ("error", JVal.vObj
           [("code", JVal.vNum 2), ("message", JVal.vStr "x"),
            ("name", JVal.vStr "E"), ("data", JVal.vStr "y")])])
      "acc" "status" (JVal.vArr []) ⟨123, []⟩ rfl).1 rfl rfl
  exact h

/-! ## Claim C7 -/

/-- The round-trips a run of `n` consecutive timed-out attempts appends to
the call log, starting from counter value `base`. -/
def timeoutCalls (method : String) (params : JVal) : Nat → Nat → List (Nat × String × JVal)
  | _, 0 => []
  | base, Nat.succ n => (base, method, params) :: timeoutCalls method params (base + 1) n

theorem timeoutCalls_length (method : String) (params : JVal) :
    ∀ (n base : Nat), (timeoutCalls method params base n).length = n := by
  intro n
  induction n with
  | zero => intro base; rfl
  | succ k ih =>
    intro base
    simp [timeoutCalls, ih]

/-- If every transport reply to `method`/`params` is a non-array value whose
truthy `error` classifies as Timeout-discriminated, the backoff loop runs all
its `n` iterations, stamping one round-trip per attempt, and terminates with
the exhaustion value. -/
theorem backoffLoop_all_timeout (transport : Transport) (account method : String)
    (params : JVal)
    (inner : String → JVal → WorldState → Except JsError JVal × WorldState)
    (h : ∀ i : Nat, (transport i method params).isArr = false
      ∧ ((transport i method params).prop "error").truthy = true
      ∧ (classifyError ((transport i method params).prop "error")).isTimeout = true) :
    ∀ (n : Nat) (st : WorldState),
      backoffLoop n (attemptStep true transport account method params inner) st
        = (Except.ok (JVal.vObj []),
           ⟨st.nextId + n, st.calls ++ timeoutCalls method params st.nextId n⟩) := by
  intro n
  induction n with
  | zero =>
    intro st
    simp [backoffLoop, timeoutCalls]
  | succ k ih =>
    intro st
    rw [backoffLoop_succ,
      attemptStep_timeout transport account method params inner st
        (h st.calls.length).1 (h st.calls.length).2.1 (h st.calls.length).2.2]
    show backoffLoop k (attemptStep true transport account method params inner)
        (stampCall st method params) = _
    rw [ih (stampCall st method params)]
    simp only [stampCall, timeoutCalls, Prod.mk.injEq, WorldState.mk.injEq, true_and]
    constructor
    · omega
    · rw [List.append_assoc]
      rfl

/-- C7: when every attempt of a `sendJsonRpc` call classifies as Timeout,
the call terminates after exactly `REQUEST_RETRY_NUMBER = 12` attempts
(twelve stamped round-trips, `timeoutCalls_length`) with the
`RetriesExceeded` `TypedError` whose message names the original method and
the attempt ceiling; it never hangs. -/
theorem c7_theorem (fuel : Nat) (transport : Transport)
    (account method : String) (params : JVal) (st : WorldState)
    (h : ∀ i : Nat, (transport i method params).isArr = false
      ∧ ((transport i method params).prop "error").truthy = true
      ∧ (classifyError ((transport i method params).prop "error")).isTimeout = true) :
    sendJsonRpc (fuel + 1) true transport account method params st
      = (Except.error (JsError.typedError
          ("Exceeded " ++ toString REQUEST_RETRY_NUMBER ++ " attempts for request to "
            ++ method ++ ".")
          (JVal.vStr "RetriesExceeded")),
         ⟨st.nextId + REQUEST_RETRY_NUMBER,
          st.calls ++ timeoutCalls method params st.nextId REQUEST_RETRY_NUMBER⟩) := by
  rw [sendJsonRpc,
    backoffLoop_all_timeout transport account method params _ h REQUEST_RETRY_NUMBER st]
  rfl

/-- C7 witness: the scenario transport replying
`\x7berror: \x7bcode: -32000, message: "timeout", data: "Timeout"\x7d\x7d`
on every attempt — `RetriesExceeded` after exactly 12 stamped attempts. -/
theorem c7_witness :
    (sendJsonRpc 1 true
        (fun _ _ _ => JVal.vObj [("error", JVal.vObj
          [("code", JVal.vNum (-32000)), ("message", JVal.vStr "timeout"),
           ("data", JVal.vStr "Timeout")])])
        "acc" "status" (JVal.vArr []) ⟨123, []⟩).1
      = Except.error (JsError.typedError
          "Exceeded 12 attempts for request to status." (JVal.vStr "RetriesExceeded"))
    ∧ (sendJsonRpc 1 true
        (fun _ _ _ => JVal.vObj [("error", JVal.vObj
          [("code", JVal.vNum (-32000)), ("message", JVal.vStr "timeout"),
           ("data", JVal.vStr "Timeout")])])
        "acc" "status" (JVal.vArr []) ⟨123, []⟩).2.calls.length = 12 := by
  have h := c7_theorem 0
      (fun _ _ _ => JVal.vObj [("error", JVal.vObj
        [("code", JVal.vNum (-32000)), ("message", JVal.vStr "timeout"),
         ("data", JVal.vStr "Timeout")])])
      "acc" "status" (JVal.vArr []) ⟨123, []⟩ (fun _ => ⟨rfl, rfl, rfl⟩)
  rw [h]
  exact ⟨rfl, rfl⟩

/-! ## Claim C8 -/

/-- The request ids of the process-wide call log, in stamping order. -/
def idsOf (st : WorldState) : List Nat := st.calls.map (fun c => c.1)

/-- The id-uniqueness invariant: the ids stamped so far are strictly
increasing (hence pairwise distinct), and every stamped id is below the
current counter value, so the next stamp is fresh. -/
def goodIds (st : WorldState) : Prop :=
  List.Pairwise (· < ·) (idsOf st) ∧ ∀ c ∈ st.calls, c.1 < st.nextId

/-- Stamping one envelope preserves the invariant: the new id is the
counter value, larger than every id stamped before, and the counter moves
past it. -/
theorem stampCall_goodIds (st : WorldState) (m : String) (p : JVal)
    (h : goodIds st) : goodIds (stampCall st m p) := by
  obtain ⟨hp, hb⟩ := h
  constructor
  · show List.Pairwise (· < ·) ((st.calls ++ [(st.nextId, m, p)]).map (fun c => c.1))
    rw [List.map_append, List.pairwise_append]
    refine ⟨hp, List.pairwise_singleton _ _, ?_⟩
    intro a ha b hbmem
    simp only [List.map_cons, List.map_nil, List.mem_singleton] at hbmem
    subst hbmem
    rcases List.mem_map.mp ha with ⟨c, hc, rfl⟩
    exact hb c hc
  · intro c hc
    simp only [stampCall, List.mem_append, List.mem_singleton] at hc
    rcases hc with hc | hc
    · exact Nat.lt_succ_of_lt (hb c hc)
    · subst hc
      exact Nat.lt_succ_self _

/-- Both outcomes of the `catch` wrapper leave the state of the `try`
block. -/
theorem attemptStep_snd (prov : Bool) (transport : Transport)
    (account method : String) (params : JVal)
    (inner : String → JVal → WorldState → Except JsError JVal × WorldState)
    (st : WorldState) :
    (attemptStep prov transport account method params inner st).2
      = (attemptBody prov transport account method params inner st).2 := by
  unfold attemptStep
  rcases attemptBody prov transport account method params inner st with ⟨r, st2⟩
  cases r with
  | ok v => rfl
  | error e =>
    cases ht : e.isTimeout <;> simp [ht]

/-- A `try` block whose transport reply is an array performs the secondary
`tx` status lookup from the stamped state and wraps its result under the
misspelled key. -/
theorem attemptBody_arr (transport : Transport) (account method : String)
    (params : JVal)
    (inner : String → JVal → WorldState → Except JsError JVal × WorldState)
    (st : WorldState)
    (h1 : (transport st.calls.length method params).isArr = true) :
    attemptBody true transport account method params inner st
      = (match inner "tx"
            (JVal.vArr [(transport st.calls.length method params).index0, JVal.vStr account])
            (stampCall st method params) with
         | (Except.error e, st2) => (Except.error e, st2)
         | (Except.ok txStatus, st2) =>
           (Except.ok (JVal.vObj [("reesult", txStatus)]), st2)) := by
  simp [attemptBody, h1]

/-- The `try` block preserves any state predicate that stamping and the
nested status lookup preserve; instantiated with `goodIds`. -/
theorem attemptBody_goodIds (prov : Bool) (transport : Transport)
    (account method : String) (params : JVal)
    (inner : String → JVal → WorldState → Except JsError JVal × WorldState)
    (hinner : ∀ m p st, goodIds st → goodIds (inner m p st).2)
    (st : WorldState) (h : goodIds st) :
    goodIds (attemptBody prov transport account method params inner st).2 := by
  cases prov with
  | false => exact h
  | true =>
    rcases Bool.eq_false_or_eq_true (transport st.calls.length method params).isArr
      with harr | harr
    · rw [attemptBody_arr transport account method params inner st harr]
      have h2 := hinner "tx"
        (JVal.vArr [(transport st.calls.length method params).index0, JVal.vStr account])
        (stampCall st method params) (stampCall_goodIds st method params h)
      rcases hres : inner "tx"
          (JVal.vArr [(transport st.calls.length method params).index0, JVal.vStr account])
          (stampCall st method params) with ⟨r, st2⟩
      rw [hres] at h2
      cases r with
      | ok v => exact h2
      | error e => exact h2
    · rcases hpe : (transport st.calls.length method params).propEx "error" with e | errv
      · rw [attemptBody_crash transport account method params inner st e harr hpe]
        exact stampCall_goodIds st method params h
      · rcases Bool.eq_false_or_eq_true errv.truthy with herr | herr
        · rw [attemptBody_ok_err transport account method params inner st errv harr hpe herr]
          exact stampCall_goodIds st method params h
        · rw [attemptBody_ok_plain transport account method params inner st errv harr hpe herr]
          exact stampCall_goodIds st method params h

/-- The (spec-modelled) backoff loop preserves any state predicate its step
preserves. -/
theorem backoffLoop_preserves (P : WorldState → Prop)
    (step : WorldState → Except JsError (Option JVal) × WorldState)
    (hstep : ∀ st, P st → P (step st).2) :
    ∀ (n : Nat) (st : WorldState), P st → P (backoffLoop n step st).2 := by
  intro n
  induction n with
  | zero => intro st h; exact h
  | succ k ih =>
    intro st h
    rw [backoffLoop_succ]
    have h2 : P (step st).2 := hstep st h
    rcases hs : step st with ⟨r, st2⟩
    rw [hs] at h2
    cases r with
    | error e => exact h2
    | ok o =>
      cases o with
      | some v => exact h2
      | none => exact ih st2 h2

/-- `sendJsonRpc` (with any nesting of the secondary lookup) preserves the
id invariant. -/
theorem sendJsonRpc_goodIds :
    ∀ (fuel : Nat) (prov : Bool) (transport : Transport) (account method : String)
      (params : JVal) (st : WorldState), goodIds st →
      goodIds (sendJsonRpc fuel prov transport account method params st).2 := by
  intro fuel
  induction fuel with
  | zero =>
    intro prov t a m p st h
    exact h
  | succ k ih =>
    intro prov t a m p st h
    rw [sendJsonRpc]
    have hloop : goodIds (backoffLoop REQUEST_RETRY_NUMBER
        (attemptStep prov t a m p (sendJsonRpc k prov t a)) st).2 := by
      refine backoffLoop_preserves goodIds _ (fun st2 h2 => ?_) REQUEST_RETRY_NUMBER st h
      rw [attemptStep_snd]
      exact attemptBody_goodIds prov t a m p _
        (fun m2 p2 st3 h3 => ih prov t a m2 p2 st3 h3) st2 h2
    rcases hrun : backoffLoop REQUEST_RETRY_NUMBER
        (attemptStep prov t a m p (sendJsonRpc k prov t a)) st with ⟨r, st2⟩
    rw [hrun] at hloop
    cases r with
    | error e => exact hloop
    | ok resp =>
      cases hu : ((resp.prop "result").typeOf == "undefined") <;> simp [hu] <;> exact hloop

/-- C8: every attempt (every retry, every nested status lookup, every
instance — `prov`, `transport`, `account`, `method`, `params` are arbitrary)
stamps `id = _nextId++` against the single shared counter of `WorldState`,
so the process-wide log of request ids stays strictly increasing, and in
particular pairwise distinct, whenever it starts that way. -/
theorem c8_theorem (fuel : Nat) (prov : Bool) (transport : Transport)
    (account method : String) (params : JVal) (st : WorldState)
    (h : goodIds st) :
    goodIds (sendJsonRpc fuel prov transport account method params st).2 :=
  sendJsonRpc_goodIds fuel prov transport account method params st h

/-- C8 witness: a fresh process state (counter 123, empty log) satisfies the
invariant, and a concrete call keeps it. -/
theorem c8_witness :
    goodIds (sendJsonRpc 2 true (fun _ _ _ => JVal.vObj [("x", JVal.vNum 1)])
      "acc" "status" (JVal.vArr []) ⟨123, []⟩).2 :=
  c8_theorem 2 true (fun _ _ _ => JVal.vObj [("x", JVal.vNum 1)])
    "acc" "status" (JVal.vArr []) ⟨123, []⟩ ⟨List.Pairwise.nil, by simp⟩

/-! ## Claim C10 -/

/-- No branch of the classification throws the `Error("Provider not exist")`
value: every thrown error is a `TypedError`, a `parseRpcError` result, or
the null-property TypeError. -/
theorem classifyError_not_plain (e : JVal) (s : String) :
    classifyError e ≠ JsError.plainError s := by
  unfold classifyError
  dsimp only
  split
  · split
    · exact fun h => JsError.noConfusion h
    · split
      · exact fun h => JsError.noConfusion h
      · exact fun h => JsError.noConfusion h
  · split
    · exact fun h => JsError.noConfusion h
    · exact fun h => JsError.noConfusion h

/-- A crashing property read throws a TypeError, never the
`Error("Provider not exist")` value. -/
theorem propEx_not_plain (v : JVal) (k s : String)
    (h : v.propEx k = Except.error (JsError.plainError s)) : False := by
  cases v <;> simp_all [JVal.propEx]

/-- With the provider present, the `try` block never throws
`Error("Provider not exist")`, provided the nested lookup does not. -/
theorem attemptBody_no_plain (transport : Transport) (account method : String)
    (params : JVal)
    (inner : String → JVal → WorldState → Except JsError JVal × WorldState)
    (hinner : ∀ m p st s, (inner m p st).1 ≠ Except.error (JsError.plainError s))
    (st : WorldState) (s : String) :
    (attemptBody true transport account method params inner st).1
      ≠ Except.error (JsError.plainError s) := by
  rcases Bool.eq_false_or_eq_true (transport st.calls.length method params).isArr
    with harr | harr
  · rw [attemptBody_arr transport account method params inner st harr]
    have hin := hinner "tx"
      (JVal.vArr [(transport st.calls.length method params).index0, JVal.vStr account])
      (stampCall st method params) s
    rcases hres : inner "tx"
        (JVal.vArr [(transport st.calls.length method params).index0, JVal.vStr account])
        (stampCall st method params) with ⟨r, st2⟩
    rw [hres] at hin
    cases r with
    | ok v => exact fun h => Except.noConfusion h
    | error e => exact hin
  · rcases hpe : (transport st.calls.length method params).propEx "error" with e | errv
    · rw [attemptBody_crash transport account method params inner st e harr hpe]
      intro h
      injection h with h1
      subst h1
      exact propEx_not_plain _ "error" s hpe
    · rcases Bool.eq_false_or_eq_true errv.truthy with herr | herr
      · rw [attemptBody_ok_err transport account method params inner st errv harr hpe herr]
        intro h
        injection h with h1
        exact classifyError_not_plain _ s h1
      · rw [attemptBody_ok_plain transport account method params inner st errv harr hpe herr]
        exact fun h => Except.noConfusion h

/-- With the provider present, an attempt never throws
`Error("Provider not exist")`. -/
theorem attemptStep_no_plain (transport : Transport) (account method : String)
    (params : JVal)
    (inner : String → JVal → WorldState → Except JsError JVal × WorldState)
    (hinner : ∀ m p st s, (inner m p st).1 ≠ Except.error (JsError.plainError s))
    (st : WorldState) (s : String) :
    (attemptStep true transport account method params inner st).1
      ≠ Except.error (JsError.plainError s) := by
  unfold attemptStep
  have hb := attemptBody_no_plain transport account method params inner hinner st s
  rcases hbody : attemptBody true transport account method params inner st with ⟨r, st2⟩
  rw [hbody] at hb
  cases r with
  | ok v => exact fun h => Except.noConfusion h
  | error e =>
    cases ht : e.isTimeout with
    | true =>
      simp only [ht, if_true]
      exact fun h => Except.noConfusion h
    | false =>
      simp only [ht, Bool.false_eq_true, if_false]
      intro h
      injection h with h1
      exact hb (by rw [h1])

/-- The backoff loop never surfaces `Error("Provider not exist")` when its
step does not. -/
theorem backoffLoop_no_plain
    (step : WorldState → Except JsError (Option JVal) × WorldState)
    (hstep : ∀ st s, (step st).1 ≠ Except.error (JsError.plainError s)) :
    ∀ (n : Nat) (st : WorldState) (s : String),
      (backoffLoop n step st).1 ≠ Except.error (JsError.plainError s) := by
  intro n
  induction n with
  | zero =>
    intro st s
    exact fun h => Except.noConfusion h
  | succ k ih =>
    intro st s
    rw [backoffLoop_succ]
    have hs2 := hstep st s
    rcases hs : step st with ⟨r, st2⟩
    rw [hs] at hs2
    cases r with
    | error e =>
      intro h
      injection h with h1
      exact hs2 (by rw [h1])
    | ok o =>
      cases o with
      | some v => exact fun h => Except.noConfusion h
      | none => exact ih st2 s

/-- With the provider present, `sendJsonRpc` can never surface
`Error("Provider not exist")`, at any nesting depth. -/
theorem sendJsonRpc_no_plain :
    ∀ (fuel : Nat) (transport : Transport) (account method : String)
      (params : JVal) (st : WorldState) (s : String),
      (sendJsonRpc fuel true transport account method params st).1
        ≠ Except.error (JsError.plainError s) := by
  intro fuel
  induction fuel with
  | zero =>
    intro t a m p st s
    intro h
    injection h with h1
    exact JsError.noConfusion h1
  | succ k ih =>
    intro t a m p st s
    rw [sendJsonRpc]
    have hloop := backoffLoop_no_plain
      (attemptStep true t a m p (sendJsonRpc k true t a))
      (fun st2 s2 => attemptStep_no_plain t a m p _
        (fun m2 p2 st3 s3 => ih t a m2 p2 st3 s3) st2 s2)
      REQUEST_RETRY_NUMBER st s
    rcases hrun : backoffLoop REQUEST_RETRY_NUMBER
        (attemptStep true t a m p (sendJsonRpc k true t a)) st with ⟨r, st2⟩
    rw [hrun] at hloop
    cases r with
    | error e => exact hloop
    | ok resp =>
      cases hu : ((resp.prop "result").typeOf == "undefined") with
      | true =>
        simp only [hu, if_true]
        intro h
        injection h with h1
        exact JsError.noConfusion h1
      | false =>
        simp only [hu, Bool.false_eq_true, if_false]
        exact fun h => Except.noConfusion h

/-- C10: after construction, `this._provider` is `some p` forever — no
operation (listener update, `on`, `init` continuation, RPC call) ever
unbinds it — and consequently a `sendJsonRpc` run on a constructed instance
(whose provider-present flag is `provider.isSome`) can never surface the
`Error("Provider not exist")` failure of line 450. -/
theorem c10_theorem (p : Transport) (ops : List ProviderOp) (fuel : Nat)
    (account method : String) (params : JVal) (st : WorldState) (s : String) :
    (applyOps (mkWalletRpcProvider p) ops).provider = some p
    ∧ (sendJsonRpc fuel ((applyOps (mkWalletRpcProvider p) ops).provider.isSome)
        p account method params st).1 ≠ Except.error (JsError.plainError s) := by
  have hprov : ∀ (ops2 : List ProviderOp) (s0 : ProviderInstance),
      (applyOps s0 ops2).provider = s0.provider := by
    intro ops2
    induction ops2 with
    | nil => intro s0; rfl
    | cons op rest ih =>
      intro s0
      rw [applyOps, ih]
      cases op <;> rfl
  refine ⟨hprov ops (mkWalletRpcProvider p), ?_⟩
  rw [show (applyOps (mkWalletRpcProvider p) ops).provider.isSome = true by
    rw [hprov ops (mkWalletRpcProvider p)]; rfl]
  exact sendJsonRpc_no_plain fuel p account method params st s

end WalletRpc
